import Mathlib

/-!
Shallow embedding of `src/index.js` of the discord-starboards package:
the `StarboardsManager` class (starboard registry backed by a JSON file).

JavaScript dynamic values that the code inspects with `typeof` are
modelled by the `JSVal` type; the manager's mutable fields
(`this.starboards`, the storage file, the emitted events) are modelled
by explicit state passing through `ManagerState`.  Each call to
`writeFileAsync(this.options.storage, JSON.stringify(this.starboards))`
is recorded in the `writes` log together with its target, and each
`this.emit(...)` is recorded in the `events` log.
-/

namespace Starboards

/-- Options record of a starboard config:
`{ emoji, starBotMsg, selfStar, threshold }` (field order as built by
`_mergeOptions`, src/index.js lines 83-88). `threshold` is a JS number;
no arithmetic is performed on it here, so `Int` suffices. -/
structure SBOptions where
  emoji : String
  starBotMsg : Bool
  selfStar : Bool
  threshold : Int
deriving Repr, DecidableEq

/-- A dynamically typed JavaScript value, as far as the `typeof` tests in
`_mergeOptions` and the constructor distinguish them: a string, a boolean,
a number, `undefined`, or anything else. -/
inductive JSVal where
  | str (s : String)
  | bool (b : Bool)
  | num (n : Int)
  | undef
  | otherVal
deriving Repr, DecidableEq

/-- The `options` argument of `create`, a JS object whose four relevant
properties may each hold a value of any type (or be absent = `undefined`). -/
structure JSOptions where
  emoji : JSVal
  starBotMsg : JSVal
  selfStar : JSVal
  threshold : JSVal
deriving Repr, DecidableEq

/-- The part of a `Discord.Channel` that `create` reads: `channel.id` and
`channel.guild.id` (src/index.js lines 104-105). -/
structure Channel where
  id : String
  guildID : String
deriving Repr, DecidableEq

/-- The `channelData` record built by `create` (src/index.js lines 103-107),
i.e. a stored starboard config. -/
structure ChannelData where
  channelID : String
  guildID : String
  options : SBOptions
deriving Repr, DecidableEq

/-- Errors thrown by the manager.  `duplicateStarboard` is the
`Error('There is already a starboard in this channel with the same emoji')`
of `create`; `notFound` is the `Error` thrown by `delete` (it interpolates
the channel id, carried here as data); `storageFormat` is a `SyntaxError`
or rethrown parse error of `getAllStarboards`. -/
inductive SBError where
  | duplicateStarboard
  | notFound (channelID : String)
  | storageFormat (msg : String)
deriving Repr, DecidableEq

/-- Domain events emitted through the `EventEmitter` base class by the
registry operations. -/
inductive SBEvent where
  | starboardCreate (data : ChannelData)
  | starboardDelete (data : ChannelData)
deriving Repr, DecidableEq

/-- The resolved `this.options.storage` value: either a boolean or a path
string (the constructor ternary at src/index.js line 52 admits exactly
these two shapes). -/
inductive StorageSetting where
  | flag (b : Bool)
  | path (s : String)
deriving Repr, DecidableEq

/-- The constructor's resolution of the `storage` option
(src/index.js line 52):
`typeof options.storage === 'boolean' || typeof options.storage === 'string'
? options.storage : './starboards.json'`. -/
def resolveStorageOption (storage : JSVal) : StorageSetting :=
  match storage with
  | .bool b => .flag b
  | .str s => .path s
  | _ => .path "./starboards.json"

/-- The manager's mutable state: the resolved `storage` option, the
in-memory list `this.starboards`, the log of full-list file writes
(target, serialized list) performed via `writeFileAsync`, and the log of
emitted domain events. -/
structure ManagerState where
  storage : StorageSetting
  starboards : List ChannelData
  writes : List (StorageSetting × List ChannelData)
  events : List SBEvent
deriving Repr, DecidableEq

/-- `_mergeOptions` (src/index.js lines 80-89): if no options are given the
defaults are returned; otherwise each field is taken from `options` when it
has the right `typeof`, else from the defaults.  `defaults` stands for
`this.defaultsOptions`. -/
def mergeOptions (defaults : SBOptions) (options : Option JSOptions) : SBOptions :=
  match options with
  | none => defaults
  | some o =>
    ⟨(match o.emoji with | .str s => s | _ => defaults.emoji),
     (match o.starBotMsg with | .bool b => b | _ => defaults.starBotMsg),
     (match o.selfStar with | .bool b => b | _ => defaults.selfStar),
     (match o.threshold with | .num n => n | _ => defaults.threshold)⟩

/-- `saveStarboard` (src/index.js lines 192-199): writes
`JSON.stringify(this.starboards)` to `this.options.storage`, ignoring its
`data` argument.  The write (target and full current list) is appended to
the write log. -/
def saveStarboard (st : ManagerState) : ManagerState :=
  { st with writes := st.writes ++ [(st.storage, st.starboards)] }

/-- `deleteStarboard` (src/index.js lines 179-186): identical effect to
`saveStarboard` — a full-list overwrite of the storage target. -/
def deleteStarboard (st : ManagerState) : ManagerState :=
  { st with writes := st.writes ++ [(st.storage, st.starboards)] }

/-- `create` (src/index.js lines 101-117): builds `channelData`, throws if
some existing starboard has the same `channelID` and `options.emoji`,
otherwise pushes it, persists via `saveStarboard`, emits `starboardCreate`
and returns `true`. -/
def create (defaults : SBOptions) (channel : Channel) (options : Option JSOptions)
    (st : ManagerState) : Except SBError (Bool × ManagerState) :=
  let channelData : ChannelData := ⟨channel.id, channel.guildID, mergeOptions defaults options⟩
  if (st.starboards.find? (fun data =>
      data.channelID == channelData.channelID &&
      data.options.emoji == channelData.options.emoji)).isSome then
    .error .duplicateStarboard
  else
    let pushed := { st with starboards := st.starboards ++ [channelData] }
    let saved := saveStarboard pushed
    .ok (true, { saved with events := saved.events ++ [.starboardCreate channelData] })

/-- `delete` (src/index.js lines 125-136): finds the first config whose
`channelID` matches (throwing if none), removes every config with that
`channelID` by `filter`, persists via `deleteStarboard`, emits
`starboardDelete` with the found config and returns `true`. -/
def delete (channelID : String) (st : ManagerState) : Except SBError (Bool × ManagerState) :=
  match st.starboards.find? (fun channelData => channelData.channelID == channelID) with
  | none => .error (.notFound channelID)
  | some data =>
    let filtered := { st with
      starboards := st.starboards.filter (fun channelData => channelData.channelID != channelID) }
    let saved := deleteStarboard filtered
    .ok (true, { saved with events := saved.events ++ [.starboardDelete data] })

/-- Lookup of a starboard config by channel id, as performed inline by the
`channelDelete` listener (src/index.js line 58) and by `delete`
(src/index.js line 126): the first config whose `channelID` matches. -/
def findByChannel (starboards : List ChannelData) (channelID : String) : Option ChannelData :=
  starboards.find? (fun data => data.channelID == channelID)

/-- The contents of the storage file, as the categories distinguished by
`getAllStarboards` (src/index.js lines 142-173): absent; a well-formed JSON
array of configs; valid JSON that is not an array; JSON whose parse fails
with `Unexpected end of JSON input` (truncated); or JSON whose parse fails
with some other message (rethrown as-is). -/
inductive StoreContent where
  | absent
  | jsonArray (starboards : List ChannelData)
  | jsonNonArray
  | truncated
  | malformedOther (msg : String)
deriving Repr, DecidableEq

/-- `getAllStarboards` (src/index.js lines 142-173): if the storage file
does not exist it is created with content `[]` and the empty list is
returned; a well-formed array is returned as-is; a non-array parse result
raises a `SyntaxError`; a truncated file raises a re-wrapped `SyntaxError`;
any other parse error is rethrown.  Returns the loaded list together with
the (possibly initialized) store content. -/
def getAllStarboards (store : StoreContent) : Except SBError (List ChannelData × StoreContent) :=
  match store with
  | .absent => .ok ([], .jsonArray [])
  | .jsonArray starboards => .ok (starboards, .jsonArray starboards)
  | .jsonNonArray =>
    .error (.storageFormat "The storage file is not properly formatted (giveaways is not an array).")
  | .truncated =>
    .error (.storageFormat "The storage file is not properly formatted (Unexpected end of JSON input).")
  | .malformedOther msg => .error (.storageFormat msg)

/-- A registry call: `create` (register) or `delete` (unregister). -/
inductive Op where
  | register (channel : Channel) (options : Option JSOptions)
  | unregister (channelID : String)
deriving Repr, DecidableEq

/-- Runs one registry call on the state.  A thrown error leaves the state
unchanged (in the source, both `create` and `delete` throw before any
mutation). -/
def applyOp (defaults : SBOptions) (st : ManagerState) (op : Op) : ManagerState :=
  match op with
  | .register channel options =>
    match create defaults channel options st with
    | .ok r => r.2
    | .error _ => st
  | .unregister channelID =>
    match delete channelID st with
    | .ok r => r.2
    | .error _ => st

/-- The state of a freshly constructed manager whose storage file was
absent: `_init` loads an empty list and the logs are empty. -/
def initState (storage : StorageSetting) : ManagerState :=
  ⟨storage, [], [], []⟩

/-- Runs a sequence of registry calls starting from the empty registry. -/
def runOps (defaults : SBOptions) (storage : StorageSetting) (ops : List Op) : ManagerState :=
  ops.foldl (applyOp defaults) (initState storage)

/-- Modelled from the spec: the default options record
`StarBoardCreateDefaultsOptions` lives in `src/constants.js`, which is not
part of the provided sources; the spec gives the defaults as
`emoji='⭐'`, `threshold=5`, `selfStar=false`, `starBotMsg=true`. -/
def StarBoardCreateDefaultsOptions : SBOptions :=
  ⟨"⭐", true, false, 5⟩

/-- No two configs in a list share the `(channelID, emoji)` pair. -/
def uniquePairs (starboards : List ChannelData) : Prop :=
  starboards.Pairwise (fun a b =>
    ¬(a.channelID = b.channelID ∧ a.options.emoji = b.options.emoji))

/-- The last full-list write recorded in the log (if any) targeted the
current storage setting and carried the current in-memory list. -/
def lastWriteCurrent (st : ManagerState) : Prop :=
  st.writes = [] ∨ st.writes.getLast? = some (st.storage, st.starboards)

/-- Elimination lemma for a successful `create`: the duplicate search was
empty and the result state appends the new config to the list, logs one
full-list write, and emits one `starboardCreate` event. -/
theorem create_ok_elim {defaults : SBOptions} {channel : Channel}
    {options : Option JSOptions} {st : ManagerState} {r : Bool × ManagerState}
    (h : create defaults channel options st = .ok r) :
    st.starboards.find? (fun data =>
      data.channelID == channel.id &&
      data.options.emoji == (mergeOptions defaults options).emoji) = none ∧
    r.1 = true ∧
    r.2.storage = st.storage ∧
    r.2.starboards =
      st.starboards ++ [⟨channel.id, channel.guildID, mergeOptions defaults options⟩] ∧
    r.2.writes = st.writes ++
      [(st.storage,
        st.starboards ++ [⟨channel.id, channel.guildID, mergeOptions defaults options⟩])] ∧
    r.2.events = st.events ++
      [.starboardCreate ⟨channel.id, channel.guildID, mergeOptions defaults options⟩] := by
  simp only [create, saveStarboard] at h
  split at h
  · cases h
  · rename_i hfind
    injection h with h2
    subst h2
    exact ⟨Option.not_isSome_iff_eq_none.mp hfind, rfl, rfl, rfl, rfl, rfl⟩

/-- Elimination lemma for a successful `delete`: some config matched the
channel id, the result state removes all matching configs, logs one
full-list write, and emits one `starboardDelete` event with the first
match. -/
theorem delete_ok_elim {channelID : String} {st : ManagerState}
    {r : Bool × ManagerState} (h : delete channelID st = .ok r) :
    ∃ data,
      st.starboards.find? (fun cd => cd.channelID == channelID) = some data ∧
      r.1 = true ∧
      r.2.storage = st.storage ∧
      r.2.starboards = st.starboards.filter (fun cd => cd.channelID != channelID) ∧
      r.2.writes = st.writes ++
        [(st.storage, st.starboards.filter (fun cd => cd.channelID != channelID))] ∧
      r.2.events = st.events ++ [.starboardDelete data] := by
  simp only [delete, deleteStarboard] at h
  split at h
  · cases h
  · rename_i data hfind
    injection h with h2
    subst h2
    exact ⟨data, hfind, rfl, rfl, rfl, rfl, rfl⟩

/-- Appending a config whose `(channelID, emoji)` pair matches no existing
config preserves pairwise uniqueness. -/
theorem uniquePairs_append_single {l : List ChannelData} {cd : ChannelData}
    (h : uniquePairs l)
    (hnone : l.find? (fun data =>
      data.channelID == cd.channelID &&
      data.options.emoji == cd.options.emoji) = none) :
    uniquePairs (l ++ [cd]) := by
  rw [uniquePairs, List.pairwise_append]
  refine ⟨h, List.pairwise_singleton _ _, ?_⟩
  intro a ha b hb
  simp only [List.mem_singleton] at hb
  subst hb
  have hfail := List.find?_eq_none.mp hnone a ha
  simp only [Bool.and_eq_true, beq_iff_eq] at hfail
  exact hfail

/-- Every registry call preserves pairwise uniqueness of
`(channelID, emoji)`: `create` refuses duplicates before pushing, `delete`
only removes elements, and failed calls leave the list unchanged. -/
theorem uniquePairs_applyOp (defaults : SBOptions) (st : ManagerState) (op : Op)
    (h : uniquePairs st.starboards) :
    uniquePairs (applyOp defaults st op).starboards := by
  cases op with
  | register channel options =>
    cases hc : create defaults channel options st with
    | error e => simpa only [applyOp, hc] using h
    | ok r =>
      obtain ⟨hfind, -, -, hsb, -, -⟩ := create_ok_elim hc
      simp only [applyOp, hc]
      rw [hsb]
      exact uniquePairs_append_single h hfind
  | unregister channelID =>
    cases hc : delete channelID st with
    | error e => simpa only [applyOp, hc] using h
    | ok r =>
      obtain ⟨data, -, -, -, hsb, -, -⟩ := delete_ok_elim hc
      simp only [applyOp, hc]
      rw [hsb]
      exact h.sublist (List.filter_sublist _)

/-- Pairwise uniqueness is preserved along any fold of registry calls. -/
theorem uniquePairs_foldl (defaults : SBOptions) (ops : List Op)
    (st : ManagerState) (h : uniquePairs st.starboards) :
    uniquePairs (ops.foldl (applyOp defaults) st).starboards := by
  induction ops generalizing st with
  | nil => exact h
  | cons op rest ih => exact ih _ (uniquePairs_applyOp defaults st op h)

/-- Claim C1: for every sequence of register (create) and unregister
(delete) calls starting from an empty registry, no two configs in the
registry ever share the same `(channelID, emoji)` pair; the uniqueness
check is performed at creation time (`create` searches the current list
before pushing). -/
theorem registry_unique_pairs (defaults : SBOptions) (storage : StorageSetting)
    (ops : List Op) :
    uniquePairs (runOps defaults storage ops).starboards :=
  uniquePairs_foldl defaults ops (initState storage) List.Pairwise.nil

/-- Concrete fixtures used by the closed witness theorems. -/
def samplePath : StorageSetting := .path "./starboards.json"

def sampleConfigA : ChannelData := ⟨"c1", "g1", ⟨"⭐", true, false, 5⟩⟩

def sampleConfigB : ChannelData := ⟨"c1", "g1", ⟨"✨", true, false, 3⟩⟩

def sampleState : ManagerState := ⟨samplePath, [sampleConfigA, sampleConfigB], [], []⟩

/-- Claim C2: a register (create) call whose resulting `(channelID, emoji)`
pair is already present fails with the duplicate-starboard error and leaves
the whole manager state — in-memory list, persisted store (write log) and
emitted events — unchanged. -/
theorem register_duplicate_rejected (defaults : SBOptions) (channel : Channel)
    (options : Option JSOptions) (st : ManagerState)
    (h : ∃ data ∈ st.starboards, data.channelID = channel.id ∧
      data.options.emoji = (mergeOptions defaults options).emoji) :
    create defaults channel options st = .error .duplicateStarboard ∧
    applyOp defaults st (.register channel options) = st := by
  obtain ⟨d, hd, h1, h2⟩ := h
  have hfind : (st.starboards.find? (fun data =>
      data.channelID == channel.id &&
      data.options.emoji == (mergeOptions defaults options).emoji)).isSome = true := by
    rw [List.find?_isSome]
    exact ⟨d, hd, by simp [h1, h2]⟩
  have hcreate : create defaults channel options st = .error .duplicateStarboard := by
    simp only [create]
    rw [if_pos hfind]
  exact ⟨hcreate, by simp only [applyOp, hcreate]⟩

/-- Witness for C2: registering channel `c1` with the default emoji on a
state that already holds a `(c1, ⭐)` config fails and changes nothing. -/
theorem register_duplicate_rejected_witness :
    create StarBoardCreateDefaultsOptions ⟨"c1", "g9"⟩ none sampleState =
      .error .duplicateStarboard ∧
    applyOp StarBoardCreateDefaultsOptions sampleState
      (.register ⟨"c1", "g9"⟩ none) = sampleState :=
  register_duplicate_rejected StarBoardCreateDefaultsOptions ⟨"c1", "g9"⟩ none
    sampleState ⟨sampleConfigA, by decide, by decide, by decide⟩

/-- Claim C3: unregister (delete) on a channel with no matching config
fails with the not-found error and mutates nothing; on a channel with a
matching config it succeeds, a subsequent `findByChannel` lookup returns
nothing, the full list is persisted, and exactly one `starboardDelete`
event carrying the matched config is emitted. -/
theorem unregister_spec (defaults : SBOptions) (channelID : String)
    (st : ManagerState) :
    (findByChannel st.starboards channelID = none →
      delete channelID st = .error (.notFound channelID) ∧
      applyOp defaults st (.unregister channelID) = st) ∧
    (∀ data, findByChannel st.starboards channelID = some data →
      ∃ st2, delete channelID st = .ok (true, st2) ∧
        findByChannel st2.starboards channelID = none ∧
        st2.writes = st.writes ++ [(st.storage, st2.starboards)] ∧
        st2.events = st.events ++ [.starboardDelete data]) := by
  constructor
  · intro hnone
    have hnone2 : st.starboards.find?
        (fun channelData => channelData.channelID == channelID) = none := hnone
    have hdel : delete channelID st = .error (.notFound channelID) := by
      simp only [delete, hnone2]
    exact ⟨hdel, by simp only [applyOp, hdel]⟩
  · intro data hsome
    have hsome2 : st.starboards.find?
        (fun channelData => channelData.channelID == channelID) = some data := hsome
    have hdel : delete channelID st = .ok (true,
        ⟨st.storage,
         st.starboards.filter (fun cd => cd.channelID != channelID),
         st.writes ++ [(st.storage,
           st.starboards.filter (fun cd => cd.channelID != channelID))],
         st.events ++ [.starboardDelete data]⟩) := by
      simp only [delete, deleteStarboard, hsome2]
    refine ⟨_, hdel, ?_, rfl, rfl⟩
    rw [findByChannel, List.find?_eq_none]
    intro x hx
    have := (List.mem_filter.mp hx).2
    simpa using this

/-- Witness for C3: deleting an unconfigured channel `c9` fails and
changes nothing; deleting `c1` from the two-config sample state succeeds,
the channel is gone from lookups, the list is persisted, and one delete
event fires. -/
theorem unregister_spec_witness :
    (delete "c9" sampleState = .error (.notFound "c9") ∧
     applyOp StarBoardCreateDefaultsOptions sampleState (.unregister "c9") =
       sampleState) ∧
    (∃ st2, delete "c1" sampleState = .ok (true, st2) ∧
      findByChannel st2.starboards "c1" = none ∧
      st2.writes = sampleState.writes ++ [(sampleState.storage, st2.starboards)] ∧
      st2.events = sampleState.events ++ [.starboardDelete sampleConfigA]) :=
  ⟨(unregister_spec StarBoardCreateDefaultsOptions "c9" sampleState).1 (by decide),
   (unregister_spec StarBoardCreateDefaultsOptions "c1" sampleState).2
     sampleConfigA (by decide)⟩

/-- Claim C4: on load, an absent storage file is initialized to an empty
JSON array and the empty list is returned; a well-formed array is returned
as read; malformed content (valid JSON that is not an array, truncated
JSON, or any other parse failure) surfaces a storage-format error to the
caller instead of returning a config list. -/
theorem getAllStarboards_spec :
    getAllStarboards .absent = .ok ([], .jsonArray []) ∧
    (∀ l, getAllStarboards (.jsonArray l) = .ok (l, .jsonArray l)) ∧
    (∃ msg, getAllStarboards .jsonNonArray = .error (.storageFormat msg)) ∧
    (∃ msg, getAllStarboards .truncated = .error (.storageFormat msg)) ∧
    (∀ msg, getAllStarboards (.malformedOther msg) =
      .error (.storageFormat msg)) :=
  ⟨rfl, fun _ => rfl, ⟨_, rfl⟩, ⟨_, rfl⟩, fun _ => rfl⟩

/-- Claim C5: `create` builds the stored options by merging the supplied
options over the defaults: each of the four fields falls back to its
default when absent or of the wrong type, a well-typed supplied field is
taken verbatim, and with no options object at all the stored config's
options equal the defaults. -/
theorem merge_options_spec (defaults : SBOptions) (o : JSOptions)
    (channel : Channel) (st : ManagerState) (r : Bool × ManagerState) :
    mergeOptions defaults none = defaults ∧
    ((∀ s, o.emoji ≠ .str s) →
      (mergeOptions defaults (some o)).emoji = defaults.emoji) ∧
    (∀ s, o.emoji = .str s → (mergeOptions defaults (some o)).emoji = s) ∧
    ((∀ b, o.starBotMsg ≠ .bool b) →
      (mergeOptions defaults (some o)).starBotMsg = defaults.starBotMsg) ∧
    (∀ b, o.starBotMsg = .bool b →
      (mergeOptions defaults (some o)).starBotMsg = b) ∧
    ((∀ b, o.selfStar ≠ .bool b) →
      (mergeOptions defaults (some o)).selfStar = defaults.selfStar) ∧
    (∀ b, o.selfStar = .bool b →
      (mergeOptions defaults (some o)).selfStar = b) ∧
    ((∀ n, o.threshold ≠ .num n) →
      (mergeOptions defaults (some o)).threshold = defaults.threshold) ∧
    (∀ n, o.threshold = .num n →
      (mergeOptions defaults (some o)).threshold = n) ∧
    (create defaults channel none st = .ok r →
      r.2.starboards.getLast? = some ⟨channel.id, channel.guildID, defaults⟩) := by
    refine ⟨rfl, ?_, ?_, ?_, ?_, ?_, ?_, ?_, ?_, ?_⟩
    · intro h
      cases he : o.emoji <;> simp [mergeOptions, he]
      exact absurd he (h _)
    · intro s he; simp [mergeOptions, he]
    · intro h
      cases hb : o.starBotMsg <;> simp [mergeOptions, hb]
      exact absurd hb (h _)
    · intro b hb; simp [mergeOptions, hb]
    · intro h
      cases hb : o.selfStar <;> simp [mergeOptions, hb]
      exact absurd hb (h _)
    · intro b hb; simp [mergeOptions, hb]
    · intro h
      cases hn : o.threshold <;> simp [mergeOptions, hn]
      exact absurd hn (h _)
    · intro n hn; simp [mergeOptions, hn]
    · intro h
      obtain ⟨-, -, -, hsb, -, -⟩ := create_ok_elim h
      rw [hsb, List.getLast?_concat]
      rfl

/-- Witness for C5: an options object whose four fields all have the wrong
type yields exactly the defaults, a `create` with no options stores the
defaults, and well-typed fields are taken verbatim. -/
theorem merge_options_spec_witness :
    mergeOptions StarBoardCreateDefaultsOptions none =
      StarBoardCreateDefaultsOptions ∧
    (mergeOptions StarBoardCreateDefaultsOptions
      (some ⟨.num 3, .str "x", .undef, .bool true⟩)).emoji =
      StarBoardCreateDefaultsOptions.emoji ∧
    (mergeOptions StarBoardCreateDefaultsOptions
      (some ⟨.str "A", .bool false, .bool true, .num 7⟩)).emoji = "A" ∧
    (mergeOptions StarBoardCreateDefaultsOptions
      (some ⟨.num 3, .str "x", .undef, .bool true⟩)).starBotMsg =
      StarBoardCreateDefaultsOptions.starBotMsg ∧
    (mergeOptions StarBoardCreateDefaultsOptions
      (some ⟨.str "A", .bool false, .bool true, .num 7⟩)).starBotMsg = false ∧
    (mergeOptions StarBoardCreateDefaultsOptions
      (some ⟨.num 3, .str "x", .undef, .bool true⟩)).selfStar =
      StarBoardCreateDefaultsOptions.selfStar ∧
    (mergeOptions StarBoardCreateDefaultsOptions
      (some ⟨.str "A", .bool false, .bool true, .num 7⟩)).selfStar = true ∧
    (mergeOptions StarBoardCreateDefaultsOptions
      (some ⟨.num 3, .str "x", .undef, .bool true⟩)).threshold =
      StarBoardCreateDefaultsOptions.threshold ∧
    (mergeOptions StarBoardCreateDefaultsOptions
      (some ⟨.str "A", .bool false, .bool true, .num 7⟩)).threshold = 7 ∧
    ((create StarBoardCreateDefaultsOptions ⟨"c7", "g7"⟩ none
      (initState samplePath)).map
        (fun r => r.2.starboards.getLast?)) =
      .ok (some ⟨"c7", "g7", StarBoardCreateDefaultsOptions⟩) := by
  have hwrong := merge_options_spec StarBoardCreateDefaultsOptions
    ⟨.num 3, .str "x", .undef, .bool true⟩ ⟨"c7", "g7"⟩ (initState samplePath)
    (true, ⟨samplePath, [⟨"c7", "g7", StarBoardCreateDefaultsOptions⟩],
      [(samplePath, [⟨"c7", "g7", StarBoardCreateDefaultsOptions⟩])],
      [.starboardCreate ⟨"c7", "g7", StarBoardCreateDefaultsOptions⟩]⟩)
  have hright := merge_options_spec StarBoardCreateDefaultsOptions
    ⟨.str "A", .bool false, .bool true, .num 7⟩ ⟨"c7", "g7"⟩
    (initState samplePath)
    (true, ⟨samplePath, [⟨"c7", "g7", StarBoardCreateDefaultsOptions⟩],
      [(samplePath, [⟨"c7", "g7", StarBoardCreateDefaultsOptions⟩])],
      [.starboardCreate ⟨"c7", "g7", StarBoardCreateDefaultsOptions⟩]⟩)
  refine ⟨hwrong.1,
    hwrong.2.1 (fun s h => by cases h),
    hright.2.2.1 "A" rfl,
    hwrong.2.2.2.1 (fun b h => by cases h),
    hright.2.2.2.2.1 false rfl,
    hwrong.2.2.2.2.2.1 (fun b h => by cases h),
    hright.2.2.2.2.2.2.1 true rfl,
    hwrong.2.2.2.2.2.2.2.1 (fun n h => by cases h),
    hright.2.2.2.2.2.2.2.2.1 7 rfl, ?_⟩
  have hc : create StarBoardCreateDefaultsOptions ⟨"c7", "g7"⟩ none
      (initState samplePath) = .ok (true, ⟨samplePath,
      [⟨"c7", "g7", StarBoardCreateDefaultsOptions⟩],
      [(samplePath, [⟨"c7", "g7", StarBoardCreateDefaultsOptions⟩])],
      [.starboardCreate ⟨"c7", "g7", StarBoardCreateDefaultsOptions⟩]⟩) := rfl
  have hlast := hwrong.2.2.2.2.2.2.2.2.2 hc
  rw [hc]
  exact congrArg Except.ok hlast

/-- Claim C6: every successful mutating call performs a full-list
overwrite of the durable store: the write log gains exactly one entry
whose content is the entire current in-memory list (not a patch of the
previous content). -/
theorem mutations_full_overwrite (defaults : SBOptions) (channel : Channel)
    (options : Option JSOptions) (channelID : String) (st : ManagerState)
    (r r2 : Bool × ManagerState) :
    (create defaults channel options st = .ok r →
      r.2.writes = st.writes ++ [(st.storage, r.2.starboards)]) ∧
    (delete channelID st = .ok r2 →
      r2.2.writes = st.writes ++ [(st.storage, r2.2.starboards)]) := by
  constructor
  · intro h
    obtain ⟨-, -, -, hsb, hw, -⟩ := create_ok_elim h
    rw [hw, hsb]
  · intro h
    obtain ⟨data, -, -, -, hsb, hw, -⟩ := delete_ok_elim h
    rw [hw, hsb]

/-- Witness for C6: a concrete successful create and a concrete successful
delete each append one write holding the whole current list. -/
theorem mutations_full_overwrite_witness :
    (∃ r, create StarBoardCreateDefaultsOptions ⟨"c2", "g1"⟩ none sampleState =
        .ok r ∧
      r.2.writes = sampleState.writes ++ [(sampleState.storage, r.2.starboards)]) ∧
    (∃ r2, delete "c1" sampleState = .ok r2 ∧
      r2.2.writes = sampleState.writes ++
        [(sampleState.storage, r2.2.starboards)]) := by
  constructor
  · refine ⟨(true, ⟨samplePath,
      [sampleConfigA, sampleConfigB, ⟨"c2", "g1", StarBoardCreateDefaultsOptions⟩],
      [(samplePath,
        [sampleConfigA, sampleConfigB, ⟨"c2", "g1", StarBoardCreateDefaultsOptions⟩])],
      [.starboardCreate ⟨"c2", "g1", StarBoardCreateDefaultsOptions⟩]⟩),
      rfl, ?_⟩
    exact (mutations_full_overwrite StarBoardCreateDefaultsOptions ⟨"c2", "g1"⟩
      none "c1" sampleState _ (true, sampleState)).1 rfl
  · refine ⟨(true, ⟨samplePath, [],
      [(samplePath, [])], [.starboardDelete sampleConfigA]⟩), rfl, ?_⟩
    exact (mutations_full_overwrite StarBoardCreateDefaultsOptions ⟨"c2", "g1"⟩
      none "c1" sampleState (true, sampleState) _).2 rfl

/-- Every registry call preserves the property that the most recent write
in the log (when one exists) carries the current in-memory list. -/
theorem lastWriteCurrent_applyOp (defaults : SBOptions) (st : ManagerState)
    (op : Op) (h : lastWriteCurrent st) :
    lastWriteCurrent (applyOp defaults st op) := by
  cases op with
  | register channel options =>
    cases hc : create defaults channel options st with
    | error e => simpa only [applyOp, hc] using h
    | ok r =>
      obtain ⟨-, -, hst, hsb, hw, -⟩ := create_ok_elim hc
      simp only [applyOp, hc]
      right
      rw [hw, hst, hsb, List.getLast?_concat]
  | unregister channelID =>
    cases hc : delete channelID st with
    | error e => simpa only [applyOp, hc] using h
    | ok r =>
      obtain ⟨data, -, -, hst, hsb, hw, -⟩ := delete_ok_elim hc
      simp only [applyOp, hc]
      right
      rw [hw, hst, hsb, List.getLast?_concat]

/-- The last-write invariant holds after any sequence of registry calls
starting from the empty registry. -/
theorem lastWriteCurrent_runOps (defaults : SBOptions)
    (storage : StorageSetting) (ops : List Op) :
    lastWriteCurrent (runOps defaults storage ops) := by
  rw [runOps]
  generalize hinit : initState storage = st0
  have h0 : lastWriteCurrent st0 := by rw [← hinit]; exact Or.inl rfl
  clear hinit
  induction ops generalizing st0 with
  | nil => exact h0
  | cons op rest ih =>
    exact ih _ (lastWriteCurrent_applyOp defaults st0 op h0)

/-- Claim C7: after any sequence of registry calls from the empty
registry, reloading in a fresh instance from the storage content written
by the last persist (the last entry of the write log) yields a config list
that is a permutation of — in fact equal to — the current in-memory list. -/
theorem storage_round_trip (defaults : SBOptions) (storage : StorageSetting)
    (ops : List Op) (w : StorageSetting × List ChannelData)
    (h : (runOps defaults storage ops).writes.getLast? = some w) :
    ∃ loaded store2, getAllStarboards (.jsonArray w.2) = .ok (loaded, store2) ∧
      loaded.Perm (runOps defaults storage ops).starboards := by
  cases lastWriteCurrent_runOps defaults storage ops with
  | inl hnil => rw [hnil] at h; cases h
  | inr hlast =>
    rw [hlast] at h
    injection h with h2
    subst h2
    exact ⟨_, _, rfl, List.Perm.refl _⟩

/-- Witness for C7: after registering three distinct configs the last
write reloads to exactly the in-memory three-element list. -/
theorem storage_round_trip_witness :
    ∃ loaded store2,
      getAllStarboards (.jsonArray
        ((samplePath, [⟨"c1", "g1", StarBoardCreateDefaultsOptions⟩,
          ⟨"c2", "g1", StarBoardCreateDefaultsOptions⟩,
          ⟨"c3", "g1", StarBoardCreateDefaultsOptions⟩]) :
          StorageSetting × List ChannelData).2) = .ok (loaded, store2) ∧
      loaded.Perm (runOps StarBoardCreateDefaultsOptions samplePath
        [.register ⟨"c1", "g1"⟩ none, .register ⟨"c2", "g1"⟩ none,
         .register ⟨"c3", "g1"⟩ none]).starboards :=
  storage_round_trip StarBoardCreateDefaultsOptions samplePath
    [.register ⟨"c1", "g1"⟩ none, .register ⟨"c2", "g1"⟩ none,
     .register ⟨"c3", "g1"⟩ none]
    (samplePath, [⟨"c1", "g1", StarBoardCreateDefaultsOptions⟩,
      ⟨"c2", "g1", StarBoardCreateDefaultsOptions⟩,
      ⟨"c3", "g1", StarBoardCreateDefaultsOptions⟩]) rfl

/-- Counterexample for C8: two successful `create` calls that construct
different configs both return the same value `true`, and a successful
`delete` also returns `true` — so the return value is a boolean success
flag, not the constructed (or removed) `StarboardConfig`. -/
theorem register_return_counterexample :
    (create StarBoardCreateDefaultsOptions ⟨"c1", "g1"⟩ none
      (initState samplePath)).map Prod.fst = .ok true ∧
    (create StarBoardCreateDefaultsOptions ⟨"c2", "g1"⟩ none
      (initState samplePath)).map Prod.fst = .ok true ∧
    (⟨"c1", "g1", StarBoardCreateDefaultsOptions⟩ : ChannelData) ≠
      ⟨"c2", "g1", StarBoardCreateDefaultsOptions⟩ ∧
    (delete "c1" sampleState).map Prod.fst = .ok true :=
  ⟨rfl, rfl, by decide, rfl⟩

/-- Claim C8 as amended: a successful register (create) call returns the
boolean `true` — the constructed config is stored and emitted, not
returned — and likewise a successful unregister (delete) call returns
`true`, not the removed config. -/
theorem register_unregister_return_true (defaults : SBOptions)
    (channel : Channel) (options : Option JSOptions) (channelID : String)
    (st : ManagerState) (r r2 : Bool × ManagerState) :
    (create defaults channel options st = .ok r → r.1 = true) ∧
    (delete channelID st = .ok r2 → r2.1 = true) := by
  constructor
  · intro h
    exact (create_ok_elim h).2.1
  · intro h
    obtain ⟨data, -, h1, -⟩ := delete_ok_elim h
    exact h1

/-- Witness for C8 (amended): the concrete create and delete calls of the
counterexample are successful and their returned flag is `true`. -/
theorem register_unregister_return_true_witness :
    ((true, ⟨samplePath, [⟨"c1", "g1", StarBoardCreateDefaultsOptions⟩],
        [(samplePath, [⟨"c1", "g1", StarBoardCreateDefaultsOptions⟩])],
        [.starboardCreate ⟨"c1", "g1", StarBoardCreateDefaultsOptions⟩]⟩) :
      Bool × ManagerState).1 = true ∧
    ((true, ⟨samplePath, [], [(samplePath, [])],
        [.starboardDelete sampleConfigA]⟩) : Bool × ManagerState).1 = true :=
  ⟨(register_unregister_return_true StarBoardCreateDefaultsOptions
      ⟨"c1", "g1"⟩ none "c1" (initState samplePath)
      (true, ⟨samplePath, [⟨"c1", "g1", StarBoardCreateDefaultsOptions⟩],
        [(samplePath, [⟨"c1", "g1", StarBoardCreateDefaultsOptions⟩])],
        [.starboardCreate ⟨"c1", "g1", StarBoardCreateDefaultsOptions⟩]⟩)
      (true, sampleState)).1 rfl,
   (register_unregister_return_true StarBoardCreateDefaultsOptions
      ⟨"c1", "g1"⟩ none "c1" sampleState (true, sampleState)
      (true, ⟨samplePath, [], [(samplePath, [])],
        [.starboardDelete sampleConfigA]⟩)).2 rfl⟩

/-- Counterexample for C9: with the storage option resolved from the
boolean `false`, a successful `create` still performs a full-list write to
that boolean target — persistence is not disabled for boolean storage
values. -/
theorem storage_flag_counterexample :
    resolveStorageOption (.bool false) = .flag false ∧
    (create StarBoardCreateDefaultsOptions ⟨"c1", "g1"⟩ none
      (initState (.flag false))).map (fun r => r.2.writes) =
      .ok [(.flag false, [⟨"c1", "g1", StarBoardCreateDefaultsOptions⟩])] :=
  ⟨rfl, rfl⟩

/-- Claim C9 as amended: the constructor stores a boolean or string
`storage` option as-is, and resolves every other value to the fixed
default relative filename; a boolean value does not disable persistence —
every successful mutating call still appends one full-list write aimed at
whatever the resolved storage value is. -/
theorem storage_option_spec (v : JSVal) (defaults : SBOptions)
    (channel : Channel) (options : Option JSOptions) (st : ManagerState)
    (r : Bool × ManagerState) :
    (∀ b, resolveStorageOption (.bool b) = .flag b) ∧
    (∀ s, resolveStorageOption (.str s) = .path s) ∧
    ((∀ b, v ≠ .bool b) → (∀ s, v ≠ .str s) →
      resolveStorageOption v = .path "./starboards.json") ∧
    (create defaults channel options st = .ok r →
      r.2.writes = st.writes ++ [(st.storage, r.2.starboards)]) := by
  refine ⟨fun b => rfl, fun s => rfl, ?_, ?_⟩
  · intro hb hs
    cases hv : v with
    | bool b => exact absurd hv (hb b)
    | str s => exact absurd hv (hs s)
    | num n => rfl
    | undef => rfl
    | otherVal => rfl
  · intro h
    obtain ⟨-, -, -, hsb, hw, -⟩ := create_ok_elim h
    rw [hw, hsb]

/-- Witness for C9 (amended): the number `7` as a storage option resolves
to the default filename, and a concrete successful create on a
boolean-storage manager appends the full-list write. -/
theorem storage_option_spec_witness :
    resolveStorageOption (.num 7) = .path "./starboards.json" ∧
    (⟨.flag false, [⟨"c1", "g1", StarBoardCreateDefaultsOptions⟩],
      [(.flag false, [⟨"c1", "g1", StarBoardCreateDefaultsOptions⟩])],
      [.starboardCreate ⟨"c1", "g1", StarBoardCreateDefaultsOptions⟩]⟩ :
      ManagerState).writes =
      (initState (.flag false)).writes ++
        [((initState (.flag false)).storage,
          [⟨"c1", "g1", StarBoardCreateDefaultsOptions⟩])] :=
  ⟨(storage_option_spec (.num 7) StarBoardCreateDefaultsOptions ⟨"c1", "g1"⟩
      none (initState (.flag false))
      (true, ⟨.flag false, [⟨"c1", "g1", StarBoardCreateDefaultsOptions⟩],
        [(.flag false, [⟨"c1", "g1", StarBoardCreateDefaultsOptions⟩])],
        [.starboardCreate ⟨"c1", "g1", StarBoardCreateDefaultsOptions⟩]⟩)).2.2.1
      (fun b h => by cases h) (fun s h => by cases h),
   (storage_option_spec (.num 7) StarBoardCreateDefaultsOptions ⟨"c1", "g1"⟩
      none (initState (.flag false))
      (true, ⟨.flag false, [⟨"c1", "g1", StarBoardCreateDefaultsOptions⟩],
        [(.flag false, [⟨"c1", "g1", StarBoardCreateDefaultsOptions⟩])],
        [.starboardCreate ⟨"c1", "g1", StarBoardCreateDefaultsOptions⟩]⟩)).2.2.2
      rfl⟩

/-- A `find?` over a list split around its first satisfying element
returns that element. -/
theorem find?_first {α : Type} (p : α → Bool) (pre post : List α) (a : α)
    (hpre : ∀ x ∈ pre, p x = false) (ha : p a = true) :
    (pre ++ a :: post).find? p = some a := by
  induction pre with
  | nil => simpa using List.find?_cons_of_pos post ha
  | cons y ys ih =>
    rw [List.cons_append, List.find?_cons_of_neg]
    · exact ih (fun x hx => hpre x (List.mem_cons_of_mem y hx))
    · simp [hpre y (List.mem_cons_self y ys)]

/-- Claim C10: when several configs share a channel id (different emojis),
one unregister (delete) call for that channel removes every config whose
channel id matches, retains all others, emits exactly one
`starboardDelete` event, and that event carries the first matching config
in list order. -/
theorem unregister_removes_all_matching (channelID : String)
    (st : ManagerState) (pre post : List ChannelData) (data : ChannelData)
    (hsplit : st.starboards = pre ++ data :: post)
    (hdata : data.channelID = channelID)
    (hpre : ∀ x ∈ pre, x.channelID ≠ channelID) :
    ∃ st2, delete channelID st = .ok (true, st2) ∧
      (∀ x ∈ st2.starboards, x.channelID ≠ channelID) ∧
      (∀ x ∈ st.starboards, x.channelID ≠ channelID → x ∈ st2.starboards) ∧
      st2.events = st.events ++ [.starboardDelete data] ∧
      st2.events.length = st.events.length + 1 := by
  have hfind : st.starboards.find?
      (fun channelData => channelData.channelID == channelID) = some data := by
    rw [hsplit]
    exact find?_first _ pre post data
      (fun x hx => by simp [hpre x hx]) (by simp [hdata])
  have hdel : delete channelID st = .ok (true,
      ⟨st.storage,
       st.starboards.filter (fun cd => cd.channelID != channelID),
       st.writes ++ [(st.storage,
         st.starboards.filter (fun cd => cd.channelID != channelID))],
       st.events ++ [.starboardDelete data]⟩) := by
    simp only [delete, deleteStarboard, hfind]
  refine ⟨_, hdel, ?_, ?_, rfl, by simp⟩
  · intro x hx
    have := (List.mem_filter.mp hx).2
    simpa using this
  · intro x hx hne
    exact List.mem_filter.mpr ⟨hx, by simpa using hne⟩

/-- Witness for C10: the sample state holds two starboards on channel
`c1` with emojis ⭐ and ✨; one delete call removes both and emits a single
event carrying the ⭐ config (the first in list order). -/
theorem unregister_removes_all_matching_witness :
    ∃ st2, delete "c1" sampleState = .ok (true, st2) ∧
      (∀ x ∈ st2.starboards, x.channelID ≠ "c1") ∧
      (∀ x ∈ sampleState.starboards, x.channelID ≠ "c1" → x ∈ st2.starboards) ∧
      st2.events = sampleState.events ++ [.starboardDelete sampleConfigA] ∧
      st2.events.length = sampleState.events.length + 1 :=
  unregister_removes_all_matching "c1" sampleState [] [sampleConfigB]
    sampleConfigA rfl rfl (by decide)

end Starboards
